import Mathlib

/-!
Shallow embedding of `pcdet/datasets/coda/coda_dataset.py` (class `CODataset`).

Machine floats are modelled by exact rationals (every finite IEEE double is a
rational number).  Numpy arrays are modelled by Lean lists; per-frame external
collaborators (calibration transforms, `boxes_to_corners_3d`, `in_hull`,
`points_in_boxes_cpu`, file readers) are parameters of the embedding, since
their code lives outside this repository.
-/

/-- A 3-vector of rationals (a row of an `(n, 3)` numpy array). -/
abbrev Q3 := ℚ × ℚ × ℚ

/-- A 4-vector of rationals (one lidar point: x, y, z, intensity). -/
abbrev Q4 := ℚ × ℚ × ℚ × ℚ

/-- Default 3-vector, used only for in-bounds `getD` accesses. -/
def dQ3 : Q3 := (0, 0, 0)

/-- Default 4-vector, used only for in-bounds `getD` accesses. -/
def dQ4 : Q4 := (0, 0, 0, 0)

/-- The x,y,z prefix of a lidar point (`points[:, 0:3]`). -/
def xyz (p : Q4) : Q3 := (p.1, p.2.1, p.2.2.1)

/-- An image shape as returned by `io.imread(...).shape[:2]`:
`img_shape[0]` is the height, `img_shape[1]` the width. -/
structure ImgShape where
  height : ℚ
  width : ℚ

/-- Per-frame calibration object (`calibration_kitti.Calibration`), an external
collaborator: only the three transform methods used by `CODataset` are kept.
`rect_to_img` returns the pixel coordinates together with the projection
depth (`pts_img, pts_rect_depth`). -/
structure Calibration where
  rect_to_img : Q3 → (ℚ × ℚ) × ℚ
  rect_to_lidar : Q3 → Q3
  lidar_to_rect : Q3 → Q3

/-- `CODataset.get_fov_flag(pts_rect, img_shape, calib, margin=0)`:

    pts_img, pts_rect_depth = calib.rect_to_img(pts_rect)
    val_flag_1 = (pts_img[:, 0] >= 0 - margin) and (pts_img[:, 0] < img_shape[1] + margin)
    val_flag_2 = (pts_img[:, 1] >= 0 - margin) and (pts_img[:, 1] < img_shape[0] + margin)
    pts_valid_flag = val_flag_1 and val_flag_2 and (pts_rect_depth >= 0)
-/
def get_fov_flag (pts_rect : List Q3) (img_shape : ImgShape) (calib : Calibration)
    (margin : ℚ := 0) : List Bool :=
  pts_rect.map (fun p =>
    let pr := calib.rect_to_img p
    ((decide (0 - margin ≤ pr.1.1) && decide (pr.1.1 < img_shape.width + margin)) &&
     (decide (0 - margin ≤ pr.1.2) && decide (pr.1.2 < img_shape.height + margin))) &&
    decide (0 ≤ pr.2))

theorem get_fov_flag_length (pts : List Q3) (shape : ImgShape) (calib : Calibration)
    (m : ℚ) : (get_fov_flag pts shape calib m).length = pts.length := by
  simp [get_fov_flag]

theorem get_fov_flag_getD (pts : List Q3) (shape : ImgShape) (calib : Calibration)
    (m : ℚ) (i : Nat) (h : i < pts.length) :
    (get_fov_flag pts shape calib m).getD i false =
      (let pr := calib.rect_to_img (pts.getD i dQ3)
       ((decide (0 - m ≤ pr.1.1) && decide (pr.1.1 < shape.width + m)) &&
        (decide (0 - m ≤ pr.1.2) && decide (pr.1.2 < shape.height + m))) &&
       decide (0 ≤ pr.2)) := by
  unfold get_fov_flag
  rw [List.getD_eq_getElem?_getD, List.getElem?_map,
    List.getElem?_eq_getElem h, List.getD_eq_getElem?_getD,
    List.getElem?_eq_getElem h]
  rfl

/-- Claim C3: the FOV mask has one boolean per input point in input order, and a
point is kept iff its pixel x lies in `[-m, width + m)`, its pixel y lies in
`[-m, height + m)` and its projection depth is non-negative; in particular a
point projecting exactly to pixel (0,0) with positive depth is kept (for
non-negative margin and positive image extents), and a point with negative
depth is excluded regardless of its pixel position. -/
theorem get_fov_flag_spec (pts : List Q3) (shape : ImgShape) (calib : Calibration)
    (m : ℚ) (i : Nat) (h : i < pts.length) :
    (get_fov_flag pts shape calib m).length = pts.length ∧
    ((get_fov_flag pts shape calib m).getD i false = true ↔
      (0 - m ≤ (calib.rect_to_img (pts.getD i dQ3)).1.1 ∧
       (calib.rect_to_img (pts.getD i dQ3)).1.1 < shape.width + m ∧
       0 - m ≤ (calib.rect_to_img (pts.getD i dQ3)).1.2 ∧
       (calib.rect_to_img (pts.getD i dQ3)).1.2 < shape.height + m ∧
       0 ≤ (calib.rect_to_img (pts.getD i dQ3)).2)) ∧
    (((calib.rect_to_img (pts.getD i dQ3)).1.1 = 0 ∧
      (calib.rect_to_img (pts.getD i dQ3)).1.2 = 0 ∧
      0 < (calib.rect_to_img (pts.getD i dQ3)).2 ∧
      0 ≤ m ∧ 0 < shape.width ∧ 0 < shape.height) →
      (get_fov_flag pts shape calib m).getD i false = true) ∧
    ((calib.rect_to_img (pts.getD i dQ3)).2 < 0 →
      (get_fov_flag pts shape calib m).getD i false = false) := by
  have hg := get_fov_flag_getD pts shape calib m i h
  refine ⟨get_fov_flag_length pts shape calib m, ?_, ?_, ?_⟩
  · rw [hg]
    simp only [Bool.and_eq_true, decide_eq_true_eq]
    tauto
  · rintro ⟨hu, hv, hd, hm, hw, hh⟩
    rw [hg]
    simp only [hu, hv, Bool.and_eq_true, decide_eq_true_eq]
    refine ⟨⟨⟨by linarith, by linarith⟩, by linarith, by linarith⟩, by linarith⟩
  · intro hd
    rw [hg]
    simp only [Bool.and_eq_false_iff, decide_eq_false_iff_not, not_le]
    exact Or.inr hd

/-- Concrete instantiation of claim C3's theorem: a single point projecting to
pixel (0,0) at depth 1 inside a 10 by 10 image is kept by the mask. -/
theorem get_fov_flag_spec_witness :
    (0 : Nat) < ([((0 : ℚ), (0 : ℚ), (1 : ℚ))] : List Q3).length ∧
    (get_fov_flag [((0 : ℚ), (0 : ℚ), (1 : ℚ))] ⟨10, 10⟩
        ⟨fun p => ((p.1, p.2.1), p.2.2), id, id⟩ 0).getD 0 false = true :=
  ⟨by decide,
   (get_fov_flag_spec [((0 : ℚ), (0 : ℚ), (1 : ℚ))] ⟨10, 10⟩
     ⟨fun p => ((p.1, p.2.1), p.2.2), id, id⟩ 0 0 (by decide)).2.2.1
     (by refine ⟨rfl, rfl, by norm_num, by norm_num, by norm_num, by norm_num⟩)⟩

/-! ## The info builder (`CODataset.get_infos.process_single_scene`) -/

/-- One raw labeled object as produced by
`object3d_kitti.get_objects_from_label` (external reader): only the fields
consumed by `CODataset` appear. -/
structure Obj where
  cls_type : String
  truncation : ℚ
  occlusion : ℚ
  alpha : ℚ
  box2d : ℚ × ℚ × ℚ × ℚ
  l : ℚ
  h : ℚ
  w : ℚ
  loc : Q3
  ry : ℚ
  score : ℚ
  level : Int
deriving DecidableEq

/-- Default object, used only for in-bounds `getD` accesses. -/
def dObj : Obj := ⟨"", 0, 0, 0, (0, 0, 0, 0), 0, 0, 0, (0, 0, 0), 0, 0, 0⟩

/-- A lidar-frame 3D box, one row of `gt_boxes_lidar`:
`[x, y, z, l, w, h, yaw]`. -/
structure Box where
  x : ℚ
  y : ℚ
  z : ℚ
  l : ℚ
  w : ℚ
  h : ℚ
  yaw : ℚ
deriving DecidableEq

/-- Default box, used only for in-bounds `getD` accesses. -/
def dBox : Box := ⟨0, 0, 0, 0, 0, 0, 0⟩

/-- The exact rational value of the IEEE double `np.pi`. -/
def piF : ℚ := 884279719003555 / 281474976710656

/-- The sentinel class name for ignored objects. -/
def dontCare : String := "DontCare"

/-- The `annos` dictionary built by `process_single_scene`.  Rows of the
numpy arrays `bbox` `(n, 4)`, `dimensions` `(n, 3)` and `location` `(n, 3)`
are fixed-arity tuples, so the trailing shape is carried by the type even for
zero rows.  `num_points_in_gt` is `none` until `count_inside_pts` adds it. -/
structure Annotations where
  name : List String
  truncated : List ℚ
  occluded : List ℚ
  alpha : List ℚ
  bbox : List (ℚ × ℚ × ℚ × ℚ)
  dimensions : List Q3
  location : List Q3
  rotation_y : List ℚ
  score : List ℚ
  difficulty : List Int
  index : List Nat
  gt_boxes_lidar : List Box
  num_points_in_gt : Option (List Int)
deriving DecidableEq

/-- External geometric collaborators living outside this repository:
`box_utils.boxes_to_corners_3d`, `box_utils.in_hull` (membership of one point
in one hull) and `roiaware_pool3d_utils.points_in_boxes_cpu` (membership of
one point in one box, the row of the integer mask being positive). -/
structure Externals where
  boxes_to_corners_3d : Box → List Q3
  in_hull : Q3 → List Q3 → Bool
  points_in_boxes_cpu : Q3 → Box → Bool

/-- `np.argwhere(np.isin([obj.cls_type for obj in obj_list], ['DontCare'], invert=True)).reshape(-1)`:
the positions, in increasing order, of the objects whose class is not the
ignore sentinel. -/
def objIndex (obj_list : List Obj) : List Nat :=
  ((obj_list.enum.filter (fun p => p.2.cls_type != dontCare)).map (fun p => p.1))

/-- The ten raw parallel arrays of the `annos` dictionary (lines 251-272 of
the source): one entry per raw labeled object; for an empty object list every
array is the correctly shaped empty array. -/
def rawAnnos (obj_list : List Obj) : Annotations :=
  if obj_list.length > 0 then
    { name := obj_list.map (fun o => o.cls_type)
      truncated := obj_list.map (fun o => o.truncation)
      occluded := obj_list.map (fun o => o.occlusion)
      alpha := obj_list.map (fun o => o.alpha)
      bbox := obj_list.map (fun o => o.box2d)
      dimensions := obj_list.map (fun o => (o.l, o.h, o.w))
      location := obj_list.map (fun o => o.loc)
      rotation_y := obj_list.map (fun o => o.ry)
      score := obj_list.map (fun o => o.score)
      difficulty := obj_list.map (fun o => o.level)
      index := []
      gt_boxes_lidar := []
      num_points_in_gt := none }
  else
    { name := [], truncated := [], occluded := [], alpha := [], bbox := []
      dimensions := [], location := [], rotation_y := [], score := []
      difficulty := [], index := [], gt_boxes_lidar := [], num_points_in_gt := none }

/-- `gt_boxes_lidar = np.concatenate([loc_lidar, l, w, h, -(np.pi / 2 + rots)], axis=1)`
with `loc_lidar[:, 2] += h[:, 0] / 2` applied first; `dims` rows are
`(l, h, w)`. -/
def mkGtBoxes (loc_lidar : List Q3) (dims : List Q3) (rots : List ℚ) : List Box :=
  (loc_lidar.zip (dims.zip rots)).map (fun p =>
    ⟨p.1.1, p.1.2.1, p.1.2.2 + p.2.1.2.1 / 2,
     p.2.1.1, p.2.1.2.2, p.2.1.2.1, -(piF / 2 + p.2.2)⟩)

/-- `num_points_in_gt = -np.ones(num_gt)` followed by the loop
`for k in range(num_objects): num_points_in_gt[k] = flag.sum()`. -/
def countsArray (num_gt num_objects : Nat) (countOf : Nat → Int) : List Int :=
  (List.range num_objects).foldl (fun acc k => acc.set k (countOf k))
    (List.replicate num_gt (-1))

/-- Lines 280-286 of the source: gather `location`, `dimensions` and
`rotation_y` at the non-ignored positions, convert the locations to the lidar
frame, and assemble `gt_boxes_lidar`. -/
def gtBoxesOf (calib : Calibration) (obj_list : List Obj) : List Box :=
  mkGtBoxes
    (((objIndex obj_list).map (fun i => (rawAnnos obj_list).location.getD i dQ3)).map
      calib.rect_to_lidar)
    ((objIndex obj_list).map (fun i => (rawAnnos obj_list).dimensions.getD i dQ3))
    ((objIndex obj_list).map (fun i => (rawAnnos obj_list).rotation_y.getD i 0))

/-- Lines 303-308 of the source: transform the point cloud to the rect frame,
apply the FOV filter at the default margin 0, and keep `points[fov_flag]`. -/
def pts_fov_of (calib : Calibration) (shape : ImgShape) (points : List Q4) : List Q4 :=
  ((points.zip
      (get_fov_flag (points.map (fun p => calib.lidar_to_rect (xyz p))) shape calib)).filter
    (fun q => q.2)).map (fun q => q.1)

/-- `len([obj.cls_type for obj in obj_list if obj.cls_type != 'DontCare'])`. -/
def numObjectsOf (obj_list : List Obj) : Nat :=
  (obj_list.filter (fun o => o.cls_type != dontCare)).length

/-- The body of `CODataset.get_infos.process_single_scene` restricted to the
`has_label` branch: builds the full `annos` dictionary of one frame, with the
point-occupancy pass when `count_inside_pts` is set (`flag.sum()` of
`in_hull(pts_fov[:, 0:3], corners_lidar[k])` is the number of FOV points whose
hull membership holds, a `countP`). -/
def process_single_scene (calib : Calibration) (ext : Externals)
    (img_shape : ImgShape) (points : List Q4) (obj_list : List Obj)
    (count_inside_pts : Bool) : Annotations :=
  let annos1 := { rawAnnos obj_list with
    index := objIndex obj_list, gt_boxes_lidar := gtBoxesOf calib obj_list }
  if count_inside_pts then
    { annos1 with num_points_in_gt := some (countsArray
        (rawAnnos obj_list).name.length (numObjectsOf obj_list)
        (fun k => (((pts_fov_of calib img_shape points).countP (fun p =>
          ext.in_hull (xyz p)
            (ext.boxes_to_corners_3d ((gtBoxesOf calib obj_list).getD k dBox)))) : Int))) }
  else annos1

/-- The equal-length assertion loop of lines 291-300: consecutive keys of the
`annos` dictionary, in insertion order and skipping `index` and
`gt_boxes_lidar`, must have equal lengths (`num_points_in_gt` is inserted
after this check runs, so it does not participate). -/
def chainEq : List Nat → Bool
  | [] => true
  | [_] => true
  | a :: b :: t => (a == b) && chainEq (b :: t)

/-- The lengths of the checked keys in dictionary insertion order. -/
def annoFieldLens (a : Annotations) : List Nat :=
  [a.name.length, a.truncated.length, a.occluded.length, a.alpha.length,
   a.bbox.length, a.dimensions.length, a.location.length,
   a.rotation_y.length, a.score.length, a.difficulty.length]

/-- The length check performed during construction. -/
def lengthCheck (a : Annotations) : Bool := chainEq (annoFieldLens a)

/-! ## Lemmas about the info builder -/

theorem enumFrom_filter_length (q : Obj → Bool) :
    ∀ (n : Nat) (l : List Obj),
      ((List.enumFrom n l).filter (fun p => q p.2)).length = (l.filter q).length
  | _, [] => rfl
  | n, a :: t => by
    simp only [List.enumFrom, List.filter]
    cases hq : q a <;> simp [enumFrom_filter_length q (n + 1) t]

theorem objIndex_length (l : List Obj) :
    (objIndex l).length = (l.filter (fun o => o.cls_type != dontCare)).length := by
  unfold objIndex
  rw [List.length_map]
  exact enumFrom_filter_length (fun o => o.cls_type != dontCare) 0 l

theorem rawAnnos_lengths (l : List Obj) :
    (rawAnnos l).name.length = l.length ∧
    (rawAnnos l).truncated.length = l.length ∧
    (rawAnnos l).occluded.length = l.length ∧
    (rawAnnos l).alpha.length = l.length ∧
    (rawAnnos l).bbox.length = l.length ∧
    (rawAnnos l).dimensions.length = l.length ∧
    (rawAnnos l).location.length = l.length ∧
    (rawAnnos l).rotation_y.length = l.length ∧
    (rawAnnos l).score.length = l.length ∧
    (rawAnnos l).difficulty.length = l.length := by
  rcases l with _ | ⟨a, t⟩ <;> simp [rawAnnos]

theorem mkGtBoxes_length (a b : List Q3) (c : List ℚ) :
    (mkGtBoxes a b c).length = min a.length (min b.length c.length) := by
  simp [mkGtBoxes]

theorem gtBoxesOf_length (calib : Calibration) (l : List Obj) :
    (gtBoxesOf calib l).length = (l.filter (fun o => o.cls_type != dontCare)).length := by
  simp [gtBoxesOf, mkGtBoxes_length, objIndex_length]

theorem countsArray_succ (g n : Nat) (f : Nat → Int) :
    countsArray g (n + 1) f = (countsArray g n f).set n (f n) := by
  unfold countsArray
  rw [List.range_succ, List.foldl_append]
  rfl

theorem countsArray_length (g n : Nat) (f : Nat → Int) :
    (countsArray g n f).length = g := by
  induction n with
  | zero => simp [countsArray]
  | succ k ih => rw [countsArray_succ]; simp [ih]

theorem countsArray_getD (g n : Nat) (f : Nat → Int) (k : Nat) (hk : k < g) :
    (countsArray g n f).getD k 0 = if k < n then f k else -1 := by
  induction n with
  | zero =>
    simp [countsArray, List.getD_eq_getElem?_getD, List.getElem?_replicate, hk]
  | succ j ih =>
    rw [countsArray_succ]
    by_cases hkj : k = j
    · subst hkj
      rw [List.getD_eq_getElem?_getD, List.getElem?_set_self]
      · simp
      · rw [countsArray_length]; exact hk
    · rw [List.getD_eq_getElem?_getD, List.getElem?_set_ne (by omega),
        ← List.getD_eq_getElem?_getD, ih]
      have : k < j + 1 ↔ k < j := by omega
      simp [this]

/-- Claim C1: for every frame processed with labels present, the eleven
annotation arrays all have length equal to the number of raw labeled objects,
`index` and `gt_boxes_lidar` have length equal to the number of objects whose
class is not the ignore sentinel, and the equal-length check performed during
construction succeeds. -/
theorem process_single_scene_parallel_lengths (calib : Calibration) (ext : Externals)
    (shape : ImgShape) (points : List Q4) (obj_list : List Obj) :
    let a := process_single_scene calib ext shape points obj_list true
    (a.name.length = obj_list.length ∧
     a.truncated.length = obj_list.length ∧
     a.occluded.length = obj_list.length ∧
     a.alpha.length = obj_list.length ∧
     a.bbox.length = obj_list.length ∧
     a.dimensions.length = obj_list.length ∧
     a.location.length = obj_list.length ∧
     a.rotation_y.length = obj_list.length ∧
     a.score.length = obj_list.length ∧
     a.difficulty.length = obj_list.length) ∧
    (∃ arr, a.num_points_in_gt = some arr ∧ arr.length = obj_list.length) ∧
    a.index.length = (obj_list.filter (fun o => o.cls_type != dontCare)).length ∧
    a.gt_boxes_lidar.length = (obj_list.filter (fun o => o.cls_type != dontCare)).length ∧
    lengthCheck a = true := by
  intro a
  obtain ⟨h1, h2, h3, h4, h5, h6, h7, h8, h9, h10⟩ := rawAnnos_lengths obj_list
  have ha : a = { rawAnnos obj_list with
      index := objIndex obj_list, gt_boxes_lidar := gtBoxesOf calib obj_list,
      num_points_in_gt := some (countsArray
        (rawAnnos obj_list).name.length (numObjectsOf obj_list)
        (fun k => (((pts_fov_of calib shape points).countP (fun p =>
          ext.in_hull (xyz p)
            (ext.boxes_to_corners_3d ((gtBoxesOf calib obj_list).getD k dBox)))) : Int))) } := by
    simp [a, process_single_scene]
  rw [ha]
  refine ⟨⟨h1, h2, h3, h4, h5, h6, h7, h8, h9, h10⟩, ⟨_, rfl, ?_⟩, ?_, ?_, ?_⟩
  · rw [countsArray_length, h1]
  · exact objIndex_length obj_list
  · exact gtBoxesOf_length calib obj_list
  · simp [lengthCheck, annoFieldLens, chainEq,
      h1, h2, h3, h4, h5, h6, h7, h8, h9, h10]

/-- Claim C8: a frame whose label file contains zero objects yields an
`annos` record with every field present and empty (the row types of `bbox`,
`dimensions` and `location` fixing the 4- and 3-column trailing shapes), empty
`index` and `gt_boxes_lidar`, and `num_points_in_gt` equal to an empty array
rather than absent; building such a frame is a total computation, not an
error. -/
theorem process_single_scene_zero_objects (calib : Calibration) (ext : Externals)
    (shape : ImgShape) (points : List Q4) :
    process_single_scene calib ext shape points [] true =
      { name := [], truncated := [], occluded := [], alpha := [], bbox := []
        dimensions := [], location := [], rotation_y := [], score := []
        difficulty := [], index := [], gt_boxes_lidar := []
        num_points_in_gt := some [] } := by
  simp [process_single_scene, rawAnnos, objIndex, gtBoxesOf, mkGtBoxes,
    numObjectsOf, countsArray]

/-- Pointwise form of the zero-margin FOV keep condition applied to a raw
lidar point: derived characterization of `points[fov_flag]` in
`process_single_scene`. -/
def fovPointKeep (calib : Calibration) (shape : ImgShape) (p : Q4) : Bool :=
  let pr := calib.rect_to_img (calib.lidar_to_rect (xyz p))
  ((decide (0 ≤ pr.1.1) && decide (pr.1.1 < shape.width)) &&
   (decide (0 ≤ pr.1.2) && decide (pr.1.2 < shape.height))) &&
  decide (0 ≤ pr.2)

theorem zip_map_filter {α : Type} (l : List α) (g : α → Bool) :
    ((l.zip (l.map g)).filter (fun q => q.2)).map (fun q => q.1) = l.filter g := by
  induction l with
  | nil => rfl
  | cons a t ih =>
    simp only [List.map_cons, List.zip_cons_cons, List.filter_cons]
    cases hg : g a
    · simpa [hg] using ih
    · simpa [hg] using ih

theorem pts_fov_of_eq_filter (calib : Calibration) (shape : ImgShape)
    (points : List Q4) :
    pts_fov_of calib shape points = points.filter (fovPointKeep calib shape) := by
  unfold pts_fov_of get_fov_flag
  rw [List.map_map, zip_map_filter]
  apply List.filter_congr
  intro p _
  simp [fovPointKeep, Function.comp, sub_zero, add_zero]

/-- The `num_points_in_gt` array of a counted frame, with `points[fov_flag]`
rewritten through `pts_fov_of_eq_filter` into a pointwise filter. -/
theorem process_single_scene_num_eq (calib : Calibration) (ext : Externals)
    (shape : ImgShape) (points : List Q4) (obj_list : List Obj) :
    (process_single_scene calib ext shape points obj_list true).num_points_in_gt =
      some (countsArray obj_list.length (numObjectsOf obj_list)
        (fun k => (((points.filter (fovPointKeep calib shape)).countP (fun p =>
          ext.in_hull (xyz p)
            (ext.boxes_to_corners_3d ((gtBoxesOf calib obj_list).getD k dBox)))) : Int))) := by
  simp [process_single_scene, (rawAnnos_lengths obj_list).1, pts_fov_of_eq_filter]

/-- Claim C2: with point-occupancy counting enabled, `num_points_in_gt` has one
entry per raw labeled object; entry `k` below the non-ignored object count is
the number of zero-margin FOV-filtered points whose hull membership in the
`k`-th non-ignored lidar box holds, and every entry at or beyond the
non-ignored object count is the sentinel -1. -/
theorem process_single_scene_num_points_in_gt (calib : Calibration) (ext : Externals)
    (shape : ImgShape) (points : List Q4) (obj_list : List Obj)
    (arr : List Int)
    (harr : (process_single_scene calib ext shape points obj_list true).num_points_in_gt
      = some arr)
    (k : Nat) (hk : k < obj_list.length) :
    arr.length = obj_list.length ∧
    (k < numObjectsOf obj_list →
      arr.getD k 0 = (((points.filter (fovPointKeep calib shape)).countP (fun p =>
        ext.in_hull (xyz p) (ext.boxes_to_corners_3d
          ((process_single_scene calib ext shape points obj_list
              true).gt_boxes_lidar.getD k dBox)))) : Int)) ∧
    (numObjectsOf obj_list ≤ k → arr.getD k 0 = -1) := by
  have hbx : (process_single_scene calib ext shape points obj_list
      true).gt_boxes_lidar = gtBoxesOf calib obj_list := by
    simp [process_single_scene]
  rw [process_single_scene_num_eq] at harr
  have harr2 := (Option.some.injEq _ _).mp harr
  subst harr2
  refine ⟨countsArray_length _ _ _, ?_, ?_⟩
  · intro hlt
    rw [countsArray_getD _ _ _ k hk, if_pos hlt, hbx]
  · intro hge
    rw [countsArray_getD _ _ _ k hk, if_neg (by omega)]

/-- Concrete instantiation of claim C2's theorem: a frame with one kept point
and one out-of-view point, one real object and one ignored object, stores the
count 1 at entry 0 and the sentinel -1 at entry 1. -/
theorem process_single_scene_num_points_in_gt_witness :
    ((process_single_scene
        ⟨fun p => ((p.1, p.2.1), p.2.2), id, id⟩
        ⟨fun _ => [], fun _ _ => true, fun _ _ => true⟩
        ⟨10, 10⟩
        [((1 : ℚ), 2, 3, 9), ((-5 : ℚ), -5, -5, 1)]
        [{ dObj with cls_type := "Car" }, { dObj with cls_type := dontCare }]
        true).num_points_in_gt = some [1, -1]) ∧
    (0 : Nat) < 2 ∧ (1 : Nat) < 2 ∧
    ([1, -1] : List Int).getD 0 0 = 1 ∧ ([1, -1] : List Int).getD 1 0 = -1 := by
  have harr : (process_single_scene
      ⟨fun p => ((p.1, p.2.1), p.2.2), id, id⟩
      ⟨fun _ => [], fun _ _ => true, fun _ _ => true⟩
      ⟨10, 10⟩
      [((1 : ℚ), 2, 3, 9), ((-5 : ℚ), -5, -5, 1)]
      [{ dObj with cls_type := "Car" }, { dObj with cls_type := dontCare }]
      true).num_points_in_gt = some [1, -1] := by
    rw [process_single_scene_num_eq]
    decide
  refine ⟨harr, by decide, by decide, ?_, ?_⟩
  · have h := process_single_scene_num_points_in_gt
      ⟨fun p => ((p.1, p.2.1), p.2.2), id, id⟩
      ⟨fun _ => [], fun _ _ => true, fun _ _ => true⟩
      ⟨10, 10⟩
      [((1 : ℚ), 2, 3, 9), ((-5 : ℚ), -5, -5, 1)]
      [{ dObj with cls_type := "Car" }, { dObj with cls_type := dontCare }]
      [1, -1] harr 0 (by decide)
    rw [h.2.1 (by decide)]
    decide
  · have h := process_single_scene_num_points_in_gt
      ⟨fun p => ((p.1, p.2.1), p.2.2), id, id⟩
      ⟨fun _ => [], fun _ _ => true, fun _ _ => true⟩
      ⟨10, 10⟩
      [((1 : ℚ), 2, 3, 9), ((-5 : ℚ), -5, -5, 1)]
      [{ dObj with cls_type := "Car" }, { dObj with cls_type := dontCare }]
      [1, -1] harr 1 (by decide)
    exact h.2.2 (by decide)

/-! ## The balanced resampler (`CODataset.balanced_infos_resampling`) -/

/-- A loaded info record: only the keys the resampler and the evaluator touch
(`point_cloud.lidar_idx` and the optional `annos`). -/
structure InfoRec where
  lidar_idx : String
  annos : Option Annotations
deriving DecidableEq

/-- The distinct class names of a record's annotation set
(`set(info['annos']['name'])` as a membership test): the record lands in the
bucket of class `c` exactly when some object of the record is named `c`.  A
record with `annos = none` makes line 75 of the source raise KeyError;
`balanced_infos_resampling` models that error path explicitly before any
bucket is consulted, so the `getD []` below is only reached when `annos` is
present. -/
def infoHasClass (i : InfoRec) (c : String) : Bool :=
  ((i.annos.map (fun a => a.name)).getD []).contains c

/-- `cls_infos`: per class of the vocabulary, in vocabulary order, the records
containing at least one object of that class (a record may appear in several
buckets). -/
def cls_infos (class_names : List String) (infos : List InfoRec) : List (List InfoRec) :=
  class_names.map (fun c => infos.filter (fun i => infoHasClass i c))

/-- `duplicated_samples = sum([len(v) for _, v in cls_infos.items()])`. -/
def duplicated_samples (class_names : List String) (infos : List InfoRec) : Nat :=
  ((cls_infos class_names infos).map List.length).sum

/-- The number of records drawn for one class bucket:
`int(len(cur_cls_infos) * ratio)` where
`ratio = (1.0 / len(class_names)) / (len(bucket) / duplicated_samples + 1e-3)`.
Python `int()` truncates toward zero; the operand is non-negative, so this is
the floor.  The rational division `len(bucket) / duplicated_samples` is total
in ℚ while line 80 of the source raises ZeroDivisionError when
`duplicated_samples` is 0; `balanced_infos_resampling` models that error path
before any `drawCount` is taken, so this definition is only consulted with a
non-zero divisor, where the two divisions agree. -/
def drawCount (class_names : List String) (infos : List InfoRec)
    (bucket : List InfoRec) : Nat :=
  let frac : ℚ := 1 / (class_names.length : ℚ)
  let dist : ℚ := (bucket.length : ℚ) / (duplicated_samples class_names infos : ℚ)
  (Int.toNat ⌊(bucket.length : ℚ) * (frac / (dist + 1 / 1000))⌋)

/-- `CODataset.balanced_infos_resampling` (lines 65-101), parameterized by the
sampling primitive `choice` standing for `np.random.choice(bucket, n)` (a
draw of `n` records with replacement).  The three error paths of the source
are explicit:
- line 75 (`info['annos']`) raises KeyError when a record has no annotations;
- line 80 (`len(v) / duplicated_samples`) raises ZeroDivisionError when the
  non-empty vocabulary has zero class-set memberships (the comprehension
  performs no division when the vocabulary itself is empty);
- line 99 (`len(v) / len(sampled_infos)`) raises ZeroDivisionError when the
  non-empty vocabulary draws zero records in total. -/
def balanced_infos_resampling (class_names : List String) (infos : List InfoRec)
    (choice : List InfoRec → Nat → List InfoRec) : Except String (List InfoRec) :=
  if infos.all (fun i => i.annos.isSome) then
    if class_names.isEmpty || duplicated_samples class_names infos != 0 then
      let sampled_infos := ((cls_infos class_names infos).map
        (fun bucket => choice bucket (drawCount class_names infos bucket))).flatten
      if class_names.isEmpty || sampled_infos.length != 0 then
        Except.ok sampled_infos
      else Except.error "ZeroDivisionError: division by zero"
    else Except.error "ZeroDivisionError: division by zero"
  else Except.error "KeyError: annos"

/-- Claim C4, amended: over a non-empty vocabulary and a corpus whose records
all carry annotations and which has at least one vocabulary-class membership,
the resampler draws, for the class with bucket `recs`, `int(|recs| * ratio)`
records (truncation toward zero, not rounding to nearest) with replacement
from that bucket, for
`ratio = (1/numClasses) / (|recs|/duplicatedTotal + 1e-3)`; the concatenation
of the per-class draws is returned when it is non-empty, and otherwise the
final class-distribution computation of line 99 divides by zero. -/
theorem balanced_infos_resampling_draw_counts (class_names : List String)
    (infos : List InfoRec) (choice : List InfoRec → Nat → List InfoRec)
    (hlen : ∀ recs n, (choice recs n).length = n)
    (hmem : ∀ recs n, recs ≠ [] → ∀ x ∈ choice recs n, x ∈ recs)
    (hvocab : class_names ≠ [])
    (hann : infos.all (fun i => i.annos.isSome) = true)
    (hdup : duplicated_samples class_names infos ≠ 0) :
    ∃ segs : List (List InfoRec),
      segs.length = class_names.length ∧
      (∀ j, j < class_names.length →
        (segs.getD j []).length =
          Int.toNat ⌊(((cls_infos class_names infos).getD j []).length : ℚ) *
            ((1 / (class_names.length : ℚ)) /
              ((((cls_infos class_names infos).getD j []).length : ℚ) /
                  (duplicated_samples class_names infos : ℚ) + 1 / 1000))⌋ ∧
        ∀ x ∈ segs.getD j [], x ∈ (cls_infos class_names infos).getD j []) ∧
      balanced_infos_resampling class_names infos choice =
        (if segs.flatten.length = 0 then
          Except.error "ZeroDivisionError: division by zero"
        else Except.ok segs.flatten) := by
  refine ⟨(cls_infos class_names infos).map
    (fun bucket => choice bucket (drawCount class_names infos bucket)), ?_, ?_, ?_⟩
  · rw [List.length_map, cls_infos, List.length_map]
  · intro j hj
    have hjlen : j < (cls_infos class_names infos).length := by
      rw [cls_infos, List.length_map]; exact hj
    have hmap : ((cls_infos class_names infos).map
        (fun bucket => choice bucket (drawCount class_names infos bucket))).getD j [] =
        choice ((cls_infos class_names infos).getD j [])
          (drawCount class_names infos ((cls_infos class_names infos).getD j [])) := by
      rw [List.getD_eq_getElem?_getD, List.getElem?_map,
        List.getElem?_eq_getElem hjlen, List.getD_eq_getElem?_getD,
        List.getElem?_eq_getElem hjlen]
      rfl
    rw [hmap]
    constructor
    · rw [hlen]
      rfl
    · intro x hx
      rcases h0 : (cls_infos class_names infos).getD j [] with _ | ⟨a, t⟩
      · rw [h0] at hx
        have hdc : drawCount class_names infos [] = 0 := by
          simp [drawCount]
        rw [hdc] at hx
        have hnil : choice [] 0 = [] := List.length_eq_zero.mp (hlen [] 0)
        rw [hnil] at hx
        simp at hx
      · rw [h0] at hx
        exact hmem _ _ (by simp) x hx
  · have hv : class_names.isEmpty = false := by
      rcases class_names with _ | ⟨c, cs⟩
      · exact absurd rfl hvocab
      · rfl
    have hd : (duplicated_samples class_names infos != 0) = true := by
      simpa using hdup
    unfold balanced_infos_resampling
    rw [if_pos hann, hv, hd]
    simp only [Bool.false_or, if_true]
    by_cases h0 : (((cls_infos class_names infos).map
        (fun bucket => choice bucket (drawCount class_names infos bucket))).flatten).length = 0
    · rw [if_pos h0]
      have : ((((cls_infos class_names infos).map
          (fun bucket => choice bucket
            (drawCount class_names infos bucket))).flatten).length != 0) = false := by
        simp [h0]
      rw [this]
      simp
    · rw [if_neg h0]
      have : ((((cls_infos class_names infos).map
          (fun bucket => choice bucket
            (drawCount class_names infos bucket))).flatten).length != 0) = true := by
        simpa using h0
      rw [this]
      simp

/-- An annotation set that is empty except for its class-name list, used by
concrete resampler corpora. -/
def emptyAnnosWith (ns : List String) : Annotations :=
  { name := ns, truncated := [], occluded := [], alpha := [], bbox := []
    dimensions := [], location := [], rotation_y := [], score := []
    difficulty := [], index := [], gt_boxes_lidar := [], num_points_in_gt := none }

/-- A concrete two-class corpus: three records of class A, one of class B. -/
def infosW : List InfoRec :=
  [⟨"0", some (emptyAnnosWith ["A"])⟩, ⟨"1", some (emptyAnnosWith ["A"])⟩,
   ⟨"2", some (emptyAnnosWith ["A"])⟩, ⟨"3", some (emptyAnnosWith ["B"])⟩]

/-- A deterministic stand-in for `np.random.choice`: repeat the head of the
bucket. -/
def choiceW : List InfoRec → Nat → List InfoRec :=
  fun recs n => List.replicate n (recs.headD ⟨"", none⟩)

/-- Concrete instantiation of claim C4's theorem (amended form) on the
two-class corpus with buckets of sizes 3 and 1, with a head-repeating
stand-in for the random draw; both classes draw one record, so the resampler
returns the two-record corpus rather than an error. -/
theorem balanced_infos_resampling_draw_counts_witness :
    (∀ recs n, (choiceW recs n).length = n) ∧
    (∀ recs n, recs ≠ [] → ∀ x ∈ choiceW recs n, x ∈ recs) ∧
    (["A", "B"] : List String) ≠ [] ∧
    infosW.all (fun i => i.annos.isSome) = true ∧
    duplicated_samples ["A", "B"] infosW ≠ 0 ∧
    (∃ segs : List (List InfoRec),
      segs.length = (["A", "B"] : List String).length ∧
      (∀ j, j < (["A", "B"] : List String).length →
        (segs.getD j []).length =
          Int.toNat ⌊(((cls_infos ["A", "B"] infosW).getD j []).length : ℚ) *
            ((1 / ((["A", "B"] : List String).length : ℚ)) /
              ((((cls_infos ["A", "B"] infosW).getD j []).length : ℚ) /
                  (duplicated_samples ["A", "B"] infosW : ℚ) + 1 / 1000))⌋ ∧
        ∀ x ∈ segs.getD j [], x ∈ (cls_infos ["A", "B"] infosW).getD j []) ∧
      balanced_infos_resampling ["A", "B"] infosW choiceW =
        (if segs.flatten.length = 0 then
          Except.error "ZeroDivisionError: division by zero"
        else Except.ok segs.flatten)) ∧
    (∃ l, balanced_infos_resampling ["A", "B"] infosW choiceW = Except.ok l ∧
      l.length = 2) := by
  have h1 : ∀ (recs : List InfoRec) (n : Nat), (choiceW recs n).length = n := by
    intro recs n
    simp [choiceW]
  have h2 : ∀ (recs : List InfoRec) (n : Nat), recs ≠ [] →
      ∀ x ∈ choiceW recs n, x ∈ recs := by
    intro recs n hne x hx
    rcases recs with _ | ⟨a, t⟩
    · exact absurd rfl hne
    · rcases List.eq_of_mem_replicate hx with rfl
      simp [choiceW]
  have hmain := balanced_infos_resampling_draw_counts ["A", "B"] infosW choiceW
    h1 h2 (by simp) (by decide) (by decide)
  refine ⟨h1, h2, by simp, by decide, by decide, hmain, ?_⟩
  rcases hmain with ⟨segs, hslen, hj, hres⟩
  have hlenA : (((cls_infos ["A", "B"] infosW).getD 0 []).length) = 3 := by decide
  have hlenB : (((cls_infos ["A", "B"] infosW).getD 1 []).length) = 1 := by decide
  have hdup4 : duplicated_samples ["A", "B"] infosW = 4 := by decide
  have hs0 : (segs.getD 0 []).length = 1 := by
    have := (hj 0 (by norm_num)).1
    rw [hlenA, hdup4] at this
    rw [this]
    norm_num
  have hs1 : (segs.getD 1 []).length = 1 := by
    have := (hj 1 (by norm_num)).1
    rw [hlenB, hdup4] at this
    rw [this]
    norm_num
  rcases List.length_eq_two.mp (by simpa using hslen) with ⟨s0, s1, rfl⟩
  have hfl : ([s0, s1] : List (List InfoRec)).flatten.length = 2 := by
    have e0 : s0.length = 1 := hs0
    have e1 : s1.length = 1 := hs1
    simp [List.flatten, e0, e1]
  rw [hfl] at hres
  refine ⟨[s0, s1].flatten, ?_, hfl⟩
  rw [hres]
  norm_num

/-- Claim C4 counterexample: on the two-class corpus with buckets of sizes 3
and 1 — an input on which the source function returns normally — the code
draws `int(3 * ratio) = 1` record for the first class, while the claim's
`round(3 * ratio)` is 2 (here `ratio = (1/2) / (3/4 + 1/1000)`, so
`3 * ratio = 1500/751`). -/
theorem balanced_resampling_round_counterexample :
    drawCount ["A", "B"] infosW ((cls_infos ["A", "B"] infosW).getD 0 []) = 1 ∧
    Int.toNat (round (((3 : ℚ)) * ((1 / 2) / ((3 : ℚ) / 4 + 1 / 1000)))) = 2 ∧
    (1 : Nat) ≠ 2 := by
  have hlen3 : (((cls_infos ["A", "B"] infosW).getD 0 []).length) = 3 := by decide
  have hdup : duplicated_samples ["A", "B"] infosW = 4 := by decide
  refine ⟨?_, ?_, by decide⟩
  · unfold drawCount
    rw [hlen3, hdup]
    norm_num
  · norm_num [round_eq]
    rfl

/-! ## The ground-truth database builder (`CODataset.create_groundtruth_database`) -/

/-- One entry of the class-indexed database (`db_info` dict). -/
structure DbInfo where
  name : String
  path : String
  image_idx : String
  gt_idx : Nat
  box3d_lidar : Box
  num_points_in_gt : Nat
  difficulty : Int
  bbox : ℚ × ℚ × ℚ × ℚ
  score : ℚ
deriving DecidableEq

/-- One cropped-point blob file written by the builder. -/
structure Blob where
  path : String
  pts : List Q4
deriving DecidableEq

/-- Default blob, used only for in-bounds `getD` accesses. -/
def dBlob : Blob := ⟨"", []⟩

/-- `gt_points[:, :3] -= gt_boxes[i, :3]`: translate a point so the box center
becomes the origin, keeping the intensity feature. -/
def recenter (b : Box) (p : Q4) : Q4 := (p.1 - b.x, p.2.1 - b.y, p.2.2.1 - b.z, p.2.2.2)

/-- `gt_points = points[point_indices[i] > 0]` followed by the recentering:
the cropped, box-centered points persisted for one object. -/
def gtPointsOf (ext : Externals) (points : List Q4) (b : Box) : List Q4 :=
  (points.filter (fun p => ext.points_in_boxes_cpu (xyz p) b)).map (recenter b)

/-- `filename = '%s_%s_%d.bin' % (sample_idx, names[i], i)`. -/
def dbFilename (sample_idx nm : String) (i : Nat) : String :=
  sample_idx ++ "_" ++ nm ++ "_" ++ Nat.repr i ++ ".bin"

/-- The body of the per-frame loop of `CODataset.create_groundtruth_database`
(lines 347-369): for every object of the frame a blob file is written
unconditionally; an index entry is produced only when no class filter is
supplied or the object's class is in the filter.  `dir` stands for
`database_save_path` relative to the dataset root. -/
def create_groundtruth_database_frame (ext : Externals) (dir sample_idx : String)
    (points : List Q4) (annos : Annotations) (used_classes : Option (List String)) :
    List Blob × List DbInfo :=
  let gt_boxes := annos.gt_boxes_lidar
  let num_obj := gt_boxes.length
  let blobs := (List.range num_obj).map (fun i =>
    (⟨dir ++ "/" ++ dbFilename sample_idx (annos.name.getD i "") i,
      gtPointsOf ext points (gt_boxes.getD i dBox)⟩ : Blob))
  let dbs := (List.range num_obj).filterMap (fun i =>
    if (match used_classes with
        | none => true
        | some ucs => ucs.contains (annos.name.getD i "")) then
      some (⟨annos.name.getD i "",
             dir ++ "/" ++ dbFilename sample_idx (annos.name.getD i "") i,
             sample_idx, i, gt_boxes.getD i dBox,
             (gtPointsOf ext points (gt_boxes.getD i dBox)).length,
             annos.difficulty.getD i 0, annos.bbox.getD i dQ4,
             annos.score.getD i 0⟩ : DbInfo)
    else none)
  (blobs, dbs)

theorem getD_map_range {α : Type} (n : Nat) (f : Nat → α) (d : α) (i : Nat)
    (hi : i < n) : ((List.range n).map f).getD i d = f i := by
  rw [List.getD_eq_getElem?_getD, List.getElem?_map, List.getElem?_range hi]
  rfl

/-- Membership of object `i` in the per-frame index list is decided exactly
by the class filter. -/
theorem mem_dbs_iff (ext : Externals) (dir sample_idx : String)
    (points : List Q4) (annos : Annotations) (used_classes : Option (List String))
    (i : Nat) (hi : i < annos.gt_boxes_lidar.length) :
    (∃ d ∈ (create_groundtruth_database_frame ext dir sample_idx points annos
        used_classes).2, d.gt_idx = i) ↔
      (match used_classes with
       | none => true
       | some ucs => ucs.contains (annos.name.getD i "")) = true := by
  unfold create_groundtruth_database_frame
  simp only [List.mem_filterMap, List.mem_range]
  constructor
  · rintro ⟨d, ⟨a, ha, hga⟩, hidx⟩
    split at hga
    case isTrue hc =>
      have hda : d.gt_idx = a := by
        cases hga
        rfl
      rw [hda] at hidx
      rw [← hidx]
      exact hc
    case isFalse hc => cases hga
  · intro hc
    exact ⟨⟨annos.name.getD i "",
      dir ++ "/" ++ dbFilename sample_idx (annos.name.getD i "") i,
      sample_idx, i, annos.gt_boxes_lidar.getD i dBox,
      (gtPointsOf ext points (annos.gt_boxes_lidar.getD i dBox)).length,
      annos.difficulty.getD i 0, annos.bbox.getD i dQ4,
      annos.score.getD i 0⟩, ⟨i, hi, by rw [if_pos hc]⟩, rfl⟩

/-- Claim C5: for every object, the points with positive containment mask are
extracted, translated by subtracting the box center, and written to that
object's blob file unconditionally; an index entry for the object exists iff
no class filter was supplied or the object's class name is in the filter. -/
theorem create_groundtruth_database_crops (ext : Externals) (dir sample_idx : String)
    (points : List Q4) (annos : Annotations) (used_classes : Option (List String))
    (i : Nat) (hi : i < annos.gt_boxes_lidar.length) :
    let r := create_groundtruth_database_frame ext dir sample_idx points annos used_classes
    r.1.length = annos.gt_boxes_lidar.length ∧
    r.1.getD i dBlob =
      (⟨dir ++ "/" ++ dbFilename sample_idx (annos.name.getD i "") i,
        (points.filter (fun p => ext.points_in_boxes_cpu (xyz p)
            (annos.gt_boxes_lidar.getD i dBox))).map
          (recenter (annos.gt_boxes_lidar.getD i dBox))⟩ : Blob) ∧
    ((∃ d ∈ r.2, d.gt_idx = i) ↔
      (used_classes = none ∨
        ∃ ucs, used_classes = some ucs ∧ annos.name.getD i "" ∈ ucs)) := by
  intro r
  refine ⟨by simp [r, create_groundtruth_database_frame], ?_, ?_⟩
  · show ((List.range annos.gt_boxes_lidar.length).map _).getD i dBlob = _
    rw [getD_map_range _ _ _ i hi]
    rfl
  · rw [mem_dbs_iff ext dir sample_idx points annos used_classes i hi]
    rcases used_classes with _ | ucs
    · simp
    · simp

/-- Shared concrete externals for database-builder instantiations: every point
is inside every box. -/
def extW : Externals := ⟨fun _ => [], fun _ _ => true, fun _ _ => true⟩

/-- Concrete annotations of one Car whose lidar box is centered at
(10, 5, 2). -/
def annosW : Annotations :=
  { name := ["Car"], truncated := [0], occluded := [0], alpha := [0]
    bbox := [(0, 0, 0, 0)], dimensions := [(4, 4, 4)], location := [(10, 5, 2)]
    rotation_y := [0], score := [0], difficulty := [0], index := [0]
    gt_boxes_lidar := [⟨10, 5, 2, 4, 4, 4, 0⟩], num_points_in_gt := none }

/-- Concrete instantiation of claim C5's theorem: the point (11, 5, 2) inside
the box centered at (10, 5, 2) is persisted as (1, 0, 0) plus its intensity,
and the Car entry is indexed under the filter `["Car"]`. -/
theorem create_groundtruth_database_crops_witness :
    (0 : Nat) < annosW.gt_boxes_lidar.length ∧
    ((create_groundtruth_database_frame extW "gt_database" "0"
        [((11 : ℚ), 5, 2, 7)] annosW (some ["Car"])).1.getD 0 dBlob =
      (⟨"gt_database/0_Car_0.bin", [((1 : ℚ), 0, 0, 7)]⟩ : Blob)) ∧
    (∃ d ∈ (create_groundtruth_database_frame extW "gt_database" "0"
        [((11 : ℚ), 5, 2, 7)] annosW (some ["Car"])).2, d.gt_idx = 0) := by
  have h := create_groundtruth_database_crops extW "gt_database" "0"
    [((11 : ℚ), 5, 2, 7)] annosW (some ["Car"]) 0 (by decide)
  refine ⟨by decide, ?_, ?_⟩
  · rw [h.2.1]
    have hpath : "gt_database" ++ "/" ++ dbFilename "0" (annosW.name.getD 0 "") 0 =
        "gt_database/0_Car_0.bin" := by decide
    have hbox : annosW.gt_boxes_lidar.getD 0 dBox = ⟨10, 5, 2, 4, 4, 4, 0⟩ := by decide
    rw [hbox, hpath]
    show Blob.mk _ _ = _
    norm_num [extW, recenter]
  · exact (h.2.2).mpr (Or.inr ⟨["Car"], rfl, by simp [annosW]⟩)

theorem countP_filter_le {α : Type} (l : List α) (q r : α → Bool) :
    (l.filter r).countP q ≤ l.countP q := by
  induction l with
  | nil => simp
  | cons a t ih =>
    by_cases hr : r a
    · by_cases hq : q a <;>
        simp [List.filter_cons, hr, List.countP_cons, hq] <;> omega
    · simp only [List.filter_cons, hr, if_neg, List.countP_cons, Bool.false_eq_true,
        ite_false]
      omega

/-- Claim C10: every database index entry records as `num_points_in_gt` the
size of the blob persisted for its object; that count is taken over the full
raw point cloud (no FOV filter), so when the hull test and the box test agree
it is at least the FOV-filtered `num_points_in_gt` stored by the info builder
for the same object. -/
theorem gt_database_point_counts (calib : Calibration) (ext : Externals)
    (shape : ImgShape) (dir sample_idx : String) (points : List Q4)
    (obj_list : List Obj) (used_classes : Option (List String))
    (hagree : ∀ p b,
      ext.points_in_boxes_cpu p b = ext.in_hull p (ext.boxes_to_corners_3d b))
    (arr : List Int)
    (harr : (process_single_scene calib ext shape points obj_list
      true).num_points_in_gt = some arr)
    (k : Nat) (hk : k < numObjectsOf obj_list) :
    let a := process_single_scene calib ext shape points obj_list true
    let r := create_groundtruth_database_frame ext dir sample_idx points a used_classes
    (∀ d ∈ r.2, d.num_points_in_gt = (r.1.getD d.gt_idx dBlob).pts.length) ∧
    ((r.1.getD k dBlob).pts.length =
      (points.filter (fun p => ext.points_in_boxes_cpu (xyz p)
        (a.gt_boxes_lidar.getD k dBox))).length) ∧
    arr.getD k 0 ≤ (((points.filter (fun p => ext.points_in_boxes_cpu (xyz p)
        (a.gt_boxes_lidar.getD k dBox))).length : Nat) : Int) := by
  intro a r
  have hbx : a.gt_boxes_lidar = gtBoxesOf calib obj_list := by
    simp [a, process_single_scene]
  have hng : a.gt_boxes_lidar.length = numObjectsOf obj_list := by
    rw [hbx, gtBoxesOf_length]
    rfl
  refine ⟨?_, ?_, ?_⟩
  · intro d hd
    rcases List.mem_filterMap.mp hd with ⟨j, hj, hgj⟩
    have hjr : j < a.gt_boxes_lidar.length := List.mem_range.mp hj
    have hblob : r.1.getD j dBlob =
        (⟨dir ++ "/" ++ dbFilename sample_idx (a.name.getD j "") j,
          gtPointsOf ext points (a.gt_boxes_lidar.getD j dBox)⟩ : Blob) := by
      show ((List.range a.gt_boxes_lidar.length).map _).getD j dBlob = _
      rw [getD_map_range _ _ _ j hjr]
    split at hgj
    case isTrue hc =>
      have hdj : d = (⟨a.name.getD j "",
          dir ++ "/" ++ dbFilename sample_idx (a.name.getD j "") j,
          sample_idx, j, a.gt_boxes_lidar.getD j dBox,
          (gtPointsOf ext points (a.gt_boxes_lidar.getD j dBox)).length,
          a.difficulty.getD j 0, a.bbox.getD j dQ4,
          a.score.getD j 0⟩ : DbInfo) := by
        cases hgj
        rfl
      rw [hdj]
      show (gtPointsOf ext points (a.gt_boxes_lidar.getD j dBox)).length =
        (r.1.getD j dBlob).pts.length
      rw [hblob]
    case isFalse hc => cases hgj
  · have hkr : k < a.gt_boxes_lidar.length := by omega
    have hblob : r.1.getD k dBlob =
        (⟨dir ++ "/" ++ dbFilename sample_idx (a.name.getD k "") k,
          gtPointsOf ext points (a.gt_boxes_lidar.getD k dBox)⟩ : Blob) := by
      show ((List.range a.gt_boxes_lidar.length).map _).getD k dBlob = _
      rw [getD_map_range _ _ _ k hkr]
    rw [hblob]
    show (gtPointsOf ext points (a.gt_boxes_lidar.getD k dBox)).length = _
    unfold gtPointsOf
    rw [List.length_map]
  · have hk2 : k < obj_list.length := by
      have := List.length_filter_le (fun o => o.cls_type != dontCare) obj_list
      unfold numObjectsOf at hk
      omega
    have hcount := (process_single_scene_num_points_in_gt calib ext shape points
      obj_list arr harr k hk2).2.1 hk
    rw [hcount]
    have hle : ((points.filter (fovPointKeep calib shape)).countP (fun p =>
        ext.in_hull (xyz p) (ext.boxes_to_corners_3d
          (a.gt_boxes_lidar.getD k dBox)))) ≤
        (points.filter (fun p => ext.points_in_boxes_cpu (xyz p)
          (a.gt_boxes_lidar.getD k dBox))).length := by
      have h1 := countP_filter_le points
        (fun p => ext.in_hull (xyz p) (ext.boxes_to_corners_3d
          (a.gt_boxes_lidar.getD k dBox)))
        (fovPointKeep calib shape)
      have h2 : points.countP (fun p =>
          ext.in_hull (xyz p) (ext.boxes_to_corners_3d
            (a.gt_boxes_lidar.getD k dBox))) =
          (points.filter (fun p => ext.points_in_boxes_cpu (xyz p)
            (a.gt_boxes_lidar.getD k dBox))).length := by
        rw [← List.countP_eq_length_filter]
        apply List.countP_congr
        intro p _
        rw [hagree]
      omega
    exact_mod_cast hle

/-- Concrete instantiation of claim C10's theorem: with two raw points of
which only one survives the FOV filter and a box containing everything, the
database records 2 points (full cloud) while the frame annotation records the
FOV-filtered count 1. -/
theorem gt_database_point_counts_witness :
    (∀ p b, extW.points_in_boxes_cpu p b =
      extW.in_hull p (extW.boxes_to_corners_3d b)) ∧
    ((process_single_scene ⟨fun p => ((p.1, p.2.1), p.2.2), id, id⟩ extW ⟨10, 10⟩
        [((1 : ℚ), 2, 3, 9), ((-5 : ℚ), -5, -5, 1)] [{ dObj with cls_type := "Car" }]
        true).num_points_in_gt = some [1]) ∧
    (0 : Nat) < numObjectsOf [{ dObj with cls_type := "Car" }] ∧
    (((create_groundtruth_database_frame extW "gt_database" "0"
        [((1 : ℚ), 2, 3, 9), ((-5 : ℚ), -5, -5, 1)]
        (process_single_scene ⟨fun p => ((p.1, p.2.1), p.2.2), id, id⟩ extW ⟨10, 10⟩
          [((1 : ℚ), 2, 3, 9), ((-5 : ℚ), -5, -5, 1)] [{ dObj with cls_type := "Car" }]
          true) none).1.getD 0 dBlob).pts.length = 2) ∧
    (([1] : List Int).getD 0 0 ≤ (2 : Int)) ∧ (([1] : List Int).getD 0 0 < (2 : Int)) := by
  have hagree : ∀ p b, extW.points_in_boxes_cpu p b =
      extW.in_hull p (extW.boxes_to_corners_3d b) := fun p b => rfl
  have harr : (process_single_scene ⟨fun p => ((p.1, p.2.1), p.2.2), id, id⟩ extW
      ⟨10, 10⟩ [((1 : ℚ), 2, 3, 9), ((-5 : ℚ), -5, -5, 1)]
      [{ dObj with cls_type := "Car" }] true).num_points_in_gt = some [1] := by
    rw [process_single_scene_num_eq]
    decide
  have h := gt_database_point_counts ⟨fun p => ((p.1, p.2.1), p.2.2), id, id⟩ extW
    ⟨10, 10⟩ "gt_database" "0" [((1 : ℚ), 2, 3, 9), ((-5 : ℚ), -5, -5, 1)]
    [{ dObj with cls_type := "Car" }] none hagree [1] harr 0 (by decide)
  refine ⟨hagree, harr, by decide, ?_, ?_, by decide⟩
  · rw [h.2.1]
    decide
  · have h3 := h.2.2
    have hflt : (([((1 : ℚ), 2, 3, 9), ((-5 : ℚ), -5, -5, 1)] : List Q4).filter
        (fun p => extW.points_in_boxes_cpu (xyz p)
          ((process_single_scene ⟨fun p => ((p.1, p.2.1), p.2.2), id, id⟩ extW
            ⟨10, 10⟩ [((1 : ℚ), 2, 3, 9), ((-5 : ℚ), -5, -5, 1)]
            [{ dObj with cls_type := "Car" }]
            true).gt_boxes_lidar.getD 0 dBox))).length = 2 := by decide
    rw [hflt] at h3
    exact_mod_cast h3

/-! ## The prediction serializer (`CODataset.generate_prediction_dicts`) -/

/-- String extensionality through the character list. -/
theorem strExt {a b : String} (h : a.data = b.data) : a = b := congrArg String.mk h

/-- Decimal digits of a natural number, most significant first, by fuel. -/
def digitsAux : Nat → Nat → List Nat
  | 0, _ => []
  | fuel + 1, n => if n < 10 then [n] else digitsAux fuel (n / 10) ++ [n % 10]

/-- Decimal digits of a natural number, most significant first. -/
def natDigits (n : Nat) : List Nat := digitsAux (n + 1) n

/-- Decimal rendering of a natural number. -/
def natStr (n : Nat) : String := String.mk ((natDigits n).map Nat.digitChar)

/-- The `%.4f` conversion: fixed-point rendering with 4 digits after the
decimal point, the scaled value rounded to the nearest integer. -/
def fmt4 (q : ℚ) : String :=
  let n : Int := round (q * 10000)
  let s := if n < 0 then "-" else ""
  let m := n.natAbs
  s ++ natStr (m / 10000) ++ "." ++
    String.mk [Nat.digitChar (m % 10000 / 1000), Nat.digitChar (m % 10000 / 100 % 10),
      Nat.digitChar (m % 10000 / 10 % 10), Nat.digitChar (m % 10000 % 10)]

/-- One output line of lines 456-461 of the source:

    '%s -1 -1 %.4f %.4f %.4f %.4f %.4f %.4f %.4f %.4f %.4f %.4f %.4f %.4f %.4f'
      % (name, alpha, bbox[0], bbox[1], bbox[2], bbox[3],
         dims[1], dims[2], dims[0], loc[0], loc[1], loc[2], rotation_y, score)

where `dims` rows are camera-frame `(l, h, w)`, so `dims[1], dims[2], dims[0]`
is height, width, length. -/
def predLineStr (nm : String) (alpha : ℚ) (bbox : ℚ × ℚ × ℚ × ℚ)
    (dims : Q3) (loc : Q3) (ry sc : ℚ) : String :=
  nm ++ " -1 -1 " ++ fmt4 alpha ++ " " ++ fmt4 bbox.1 ++ " " ++ fmt4 bbox.2.1 ++ " " ++
    fmt4 bbox.2.2.1 ++ " " ++ fmt4 bbox.2.2.2 ++ " " ++ fmt4 dims.2.1 ++ " " ++
    fmt4 dims.2.2 ++ " " ++ fmt4 dims.1 ++ " " ++ fmt4 loc.1 ++ " " ++ fmt4 loc.2.1 ++
    " " ++ fmt4 loc.2.2 ++ " " ++ fmt4 ry ++ " " ++ fmt4 sc

/-- The fields of one output line, in order. -/
def predLineTokens (nm : String) (alpha : ℚ) (bbox : ℚ × ℚ × ℚ × ℚ)
    (dims : Q3) (loc : Q3) (ry sc : ℚ) : List String :=
  [nm, "-1", "-1", fmt4 alpha, fmt4 bbox.1, fmt4 bbox.2.1, fmt4 bbox.2.2.1,
   fmt4 bbox.2.2.2, fmt4 dims.2.1, fmt4 dims.2.2, fmt4 dims.1, fmt4 loc.1,
   fmt4 loc.2.1, fmt4 loc.2.2, fmt4 ry, fmt4 sc]

/-- Space-joining of a token list. -/
def joinSep : List String → String
  | [] => ""
  | [t] => t
  | t :: ts => t ++ " " ++ joinSep ts

/-- The space-separated fields of a string. -/
def spaceFields (s : String) : List String :=
  (s.data.splitOn ' ').map (fun cs => String.mk cs)

/-- A string rendered with exactly 4 digits after the decimal point. -/
def fourDecimals (t : String) : Prop :=
  ∃ pre ds, t = pre ++ "." ++ String.mk ds ∧ ds.length = 4 ∧
    ∀ c ∈ ds, c.isDigit = true

theorem digitsAux_lt : ∀ (fuel n : Nat), ∀ d ∈ digitsAux fuel n, d < 10
  | 0, _ => by
    intro d hd
    simp [digitsAux] at hd
  | fuel + 1, n => by
    intro d hd
    simp only [digitsAux] at hd
    split at hd
    case isTrue h =>
      rcases List.mem_singleton.mp hd with rfl
      exact h
    case isFalse h =>
      rcases List.mem_append.mp hd with h1 | h1
      · exact digitsAux_lt fuel (n / 10) d h1
      · rcases List.mem_singleton.mp h1 with rfl
        omega

theorem digitChar_isDigit : ∀ d < 10, (Nat.digitChar d).isDigit = true := by decide

theorem digitChar_ne_space : ∀ d < 10, Nat.digitChar d ≠ ' ' := by decide

theorem natStr_no_space (n : Nat) : (' ' : Char) ∉ (natStr n).data := by
  intro hmem
  rcases List.mem_map.mp hmem with ⟨d, hd, hdc⟩
  exact absurd hdc (fun he => digitChar_ne_space d
    (digitsAux_lt _ _ d hd) he)

theorem fmt4_no_space (q : ℚ) : (' ' : Char) ∉ (fmt4 q).data := by
  intro hmem
  unfold fmt4 at hmem
  simp only [String.data_append] at hmem
  rcases List.mem_append.mp hmem with h | h
  · rcases List.mem_append.mp h with h | h
    · rcases List.mem_append.mp h with h | h
      · by_cases hn : round (q * 10000) < (0 : Int)
        · rw [if_pos hn] at h
          simp at h
        · rw [if_neg hn] at h
          simp at h
      · exact natStr_no_space _ h
    · simp at h
  · simp only [List.mem_cons, List.not_mem_nil, or_false] at h
    rcases h with h | h | h | h <;>
      exact absurd h.symm (digitChar_ne_space _ (by omega))

theorem fmt4_fourDecimals (q : ℚ) : fourDecimals (fmt4 q) := by
  refine ⟨(if round (q * 10000) < (0 : Int) then "-" else "") ++
    natStr ((round (q * 10000)).natAbs / 10000),
    [Nat.digitChar ((round (q * 10000)).natAbs % 10000 / 1000),
     Nat.digitChar ((round (q * 10000)).natAbs % 10000 / 100 % 10),
     Nat.digitChar ((round (q * 10000)).natAbs % 10000 / 10 % 10),
     Nat.digitChar ((round (q * 10000)).natAbs % 10000 % 10)], rfl, rfl, ?_⟩
  intro c hc
  simp only [List.mem_cons, List.not_mem_nil, or_false] at hc
  rcases hc with rfl | rfl | rfl | rfl <;>
    exact digitChar_isDigit _ (by omega)

theorem joinSep_data (ts : List String) (hne : ts ≠ []) :
    (joinSep ts).data = [' '].intercalate (ts.map String.data) := by
  induction ts with
  | nil => exact absurd rfl hne
  | cons t ts ih =>
    rcases ts with _ | ⟨e, es⟩
    · simp [joinSep, List.intercalate]
    · have hd : joinSep (t :: e :: es) = t ++ " " ++ joinSep (e :: es) := rfl
      rw [hd]
      have hi : [' '].intercalate ((t :: e :: es).map String.data) =
          t.data ++ ' ' :: [' '].intercalate ((e :: es).map String.data) := by
        simp [List.intercalate, List.intersperse]
      rw [hi, ← ih (by simp)]
      simp [String.data_append]

theorem spaceFields_joinSep (ts : List String)
    (h : ∀ t ∈ ts, (' ' : Char) ∉ t.data) (hne : ts ≠ []) :
    spaceFields (joinSep ts) = ts := by
  unfold spaceFields
  rw [joinSep_data ts hne]
  rw [List.splitOn_intercalate (ts.map String.data) ' '
    (by
      intro l hl
      rcases List.mem_map.mp hl with ⟨t, ht, rfl⟩
      exact h t ht)
    (by simpa using hne)]
  rw [List.map_map]
  have : ts.map (fun t => String.mk (String.data t)) = ts.map id := by
    apply List.map_congr_left
    intro t _
    rfl
  rw [show ((fun cs => String.mk cs) ∘ String.data) =
    (fun t : String => String.mk (String.data t)) from rfl, this, List.map_id]

theorem predLineStr_eq_joinSep (nm : String) (alpha : ℚ) (bbox : ℚ × ℚ × ℚ × ℚ)
    (dims : Q3) (loc : Q3) (ry sc : ℚ) :
    predLineStr nm alpha bbox dims loc ry sc =
      joinSep (predLineTokens nm alpha bbox dims loc ry sc) := by
  apply strExt
  have h1 : (" -1 -1 " : String).data = [' ', '-', '1', ' ', '-', '1', ' '] := rfl
  have h2 : (" " : String).data = [' '] := rfl
  have h3 : ("-1" : String).data = ['-', '1'] := rfl
  simp [predLineStr, predLineTokens, joinSep, String.data_append, h1, h2, h3]

/-- Claim C6, amended: every detection line, split on spaces, consists of
exactly 16 fields (not 14): the class name, two literal `-1` placeholders, and
13 fixed-point numbers in the order alpha, the four 2D bbox coordinates, the
three dimensions in height-width-length order, the three location
coordinates, yaw and score, each formatted with 4 digits after the decimal
point. -/
theorem prediction_line_sixteen_fields (nm : String) (alpha : ℚ)
    (bbox : ℚ × ℚ × ℚ × ℚ) (dims : Q3) (loc : Q3) (ry sc : ℚ)
    (hnm : (' ' : Char) ∉ nm.data) :
    spaceFields (predLineStr nm alpha bbox dims loc ry sc) =
      [nm, "-1", "-1", fmt4 alpha, fmt4 bbox.1, fmt4 bbox.2.1, fmt4 bbox.2.2.1,
       fmt4 bbox.2.2.2, fmt4 dims.2.1, fmt4 dims.2.2, fmt4 dims.1, fmt4 loc.1,
       fmt4 loc.2.1, fmt4 loc.2.2, fmt4 ry, fmt4 sc] ∧
    (spaceFields (predLineStr nm alpha bbox dims loc ry sc)).length = 16 ∧
    (∀ t ∈ (spaceFields (predLineStr nm alpha bbox dims loc ry sc)).drop 3,
      fourDecimals t) := by
  have htok : spaceFields (predLineStr nm alpha bbox dims loc ry sc) =
      predLineTokens nm alpha bbox dims loc ry sc := by
    rw [predLineStr_eq_joinSep]
    apply spaceFields_joinSep
    · intro t ht
      simp only [predLineTokens, List.mem_cons, List.not_mem_nil, or_false] at ht
      rcases ht with rfl | rfl | rfl | rfl | rfl | rfl | rfl | rfl | rfl | rfl |
        rfl | rfl | rfl | rfl | rfl | rfl
      · exact hnm
      · decide
      · decide
      all_goals exact fmt4_no_space _
    · simp [predLineTokens]
  refine ⟨htok, by rw [htok]; rfl, ?_⟩
  rw [htok]
  intro t ht
  simp only [predLineTokens, List.drop, List.mem_cons, List.not_mem_nil,
    or_false] at ht
  rcases ht with rfl | rfl | rfl | rfl | rfl | rfl | rfl | rfl | rfl | rfl |
    rfl | rfl | rfl
  all_goals exact fmt4_fourDecimals _

/-- Claim C6 counterexample: the all-zero detection named `Car` serializes to
a line with 16 space-separated fields, not 14. -/
theorem prediction_line_field_count_counterexample :
    (spaceFields (predLineStr "Car" 0 (0, 0, 0, 0) (0, 0, 0) (0, 0, 0) 0 0)).length
      = 16 ∧
    (spaceFields (predLineStr "Car" 0 (0, 0, 0, 0) (0, 0, 0) (0, 0, 0) 0 0)).length
      ≠ 14 := by
  have hr : round ((0 : ℚ) * 10000) = (0 : Int) := by norm_num
  have hf : fmt4 0 = "0.0000" := by
    unfold fmt4
    rw [hr]
    decide
  have hs : predLineStr "Car" 0 (0, 0, 0, 0) (0, 0, 0) (0, 0, 0) 0 0 =
      "Car -1 -1 0.0000 0.0000 0.0000 0.0000 0.0000 0.0000 0.0000 0.0000 0.0000 0.0000 0.0000 0.0000 0.0000" := by
    unfold predLineStr
    rw [hf]
    decide
  rw [hs]
  constructor
  · decide
  · decide

/-- Concrete instantiation of claim C6's theorem (amended form) on the
all-zero detection named `Car`. -/
theorem prediction_line_sixteen_fields_witness :
    ((' ' : Char) ∉ ("Car" : String).data) ∧
    (spaceFields (predLineStr "Car" 0 (0, 0, 0, 0) (0, 0, 0) (0, 0, 0) 0 0) =
      ["Car", "-1", "-1", fmt4 0, fmt4 0, fmt4 0, fmt4 0, fmt4 0, fmt4 0,
       fmt4 0, fmt4 0, fmt4 0, fmt4 0, fmt4 0, fmt4 0, fmt4 0] ∧
     (spaceFields (predLineStr "Car" 0 (0, 0, 0, 0) (0, 0, 0) (0, 0, 0) 0 0)).length
       = 16 ∧
     (∀ t ∈ (spaceFields (predLineStr "Car" 0 (0, 0, 0, 0) (0, 0, 0)
        (0, 0, 0) 0 0)).drop 3, fourDecimals t)) :=
  ⟨by decide,
   prediction_line_sixteen_fields "Car" 0 (0, 0, 0, 0) (0, 0, 0) (0, 0, 0) 0 0
     (by decide)⟩

/-! ## The evaluator entry point (`CODataset.evaluation`) -/

/-- `CODataset.evaluation`: if the first loaded info has no `annos` key the
method returns `(None, {})`; on the empty corpus `self.coda_infos[0]` raises
an IndexError; otherwise every info's `annos` is passed to the external
`kitti_eval.get_official_eval_result` (a parameter here) and its pair is
returned.  Exceptions are modelled as `Except.error`. -/
def evaluation {α : Type}
    (kitti_eval : List Annotations → List α → List String → String × List (String × ℚ))
    (coda_infos : List InfoRec) (det_annos : List α) (class_names : List String) :
    Except String (Option String × List (String × ℚ)) :=
  match coda_infos with
  | [] => Except.error "list index out of range"
  | info0 :: _ =>
    match info0.annos with
    | none => Except.ok (none, [])
    | some _ =>
      if coda_infos.all (fun i => i.annos.isSome) then
        let r := kitti_eval (coda_infos.filterMap (fun i => i.annos))
          det_annos class_names
        Except.ok (some r.1, r.2)
      else Except.error "KeyError: annos"

/-- Claim C7, amended: for every non-empty loaded corpus containing no
ground-truth annotations at all, evaluation returns the explicit empty result
(no report string and an empty metric mapping) rather than an error. -/
theorem evaluation_no_annos {α : Type}
    (kitti_eval : List Annotations → List α → List String → String × List (String × ℚ))
    (coda_infos : List InfoRec) (det_annos : List α) (class_names : List String)
    (hne : coda_infos ≠ [])
    (hnone : ∀ i ∈ coda_infos, i.annos = none) :
    evaluation kitti_eval coda_infos det_annos class_names = Except.ok (none, []) := by
  rcases coda_infos with _ | ⟨i0, rest⟩
  · exact absurd rfl hne
  · have h0 : i0.annos = none := hnone i0 (by simp)
    simp [evaluation, h0]

/-- Concrete instantiation of claim C7's theorem (amended form): a singleton
corpus whose only record has no annotations. -/
theorem evaluation_no_annos_witness :
    (([⟨"0", none⟩] : List InfoRec) ≠ []) ∧
    (∀ i ∈ ([⟨"0", none⟩] : List InfoRec), i.annos = none) ∧
    evaluation (fun _ _ _ => ("", [])) [⟨"0", none⟩] ([] : List Nat) [] =
      Except.ok (none, []) :=
  ⟨by simp, by simp, evaluation_no_annos (fun _ _ _ => ("", [])) [⟨"0", none⟩]
    ([] : List Nat) [] (by simp) (by simp)⟩

/-- Claim C7 counterexample: on the empty corpus — which contains no
ground-truth annotations at all — the code indexes `self.coda_infos[0]` and
raises instead of returning the empty result. -/
theorem evaluation_empty_corpus_counterexample :
    evaluation (fun _ _ _ => ("", [])) ([] : List InfoRec) ([] : List Nat) [] =
      Except.error "list index out of range" ∧
    evaluation (fun _ _ _ => ("", [])) ([] : List InfoRec) ([] : List Nat) [] ≠
      Except.ok (none, []) := by
  constructor
  · rfl
  · intro h
    rw [show evaluation (fun _ _ _ => ("", [])) ([] : List InfoRec)
      ([] : List Nat) [] = Except.error "list index out of range" from rfl] at h
    cases h

/-! ## Per-frame file accessors (`CODataset.get_lidar` and friends) -/

/-- The on-disk universe the accessors see: the set of existing paths and
pure readers for each file kind (the readers stand for the external parsing
collaborators). -/
structure RawFS where
  paths : List String
  readPoints : String → List Q4
  readShape : String → ImgShape
  readObjs : String → List Obj
  readCalib : String → Calibration

/-- `root_split_path / 'velodyne' / ('%s.bin' % idx)`. -/
def lidarPath (root idx : String) : String := root ++ "/velodyne/" ++ idx ++ ".bin"

/-- `root_split_path / 'image_0' / ('%s.jpg' % idx)`. -/
def imagePath (root idx : String) : String := root ++ "/image_0/" ++ idx ++ ".jpg"

/-- `root_split_path / 'label_0' / ('%s.txt' % idx)`. -/
def labelPath (root idx : String) : String := root ++ "/label_0/" ++ idx ++ ".txt"

/-- `root_split_path / 'calib' / ('%s.txt' % idx)`. -/
def calibPath (root idx : String) : String := root ++ "/calib/" ++ idx ++ ".txt"

/-- `assert lidar_file.exists(), "Lidar files %s " % str(lidar_file)`. -/
def get_lidar (fs : RawFS) (root idx : String) : Except String (List Q4) :=
  if fs.paths.contains (lidarPath root idx) then
    Except.ok (fs.readPoints (lidarPath root idx))
  else Except.error ("Lidar files " ++ lidarPath root idx ++ " ")

/-- `assert img_file.exists(), "Image file %s does not exist" % img_file`. -/
def get_image_shape (fs : RawFS) (root idx : String) : Except String ImgShape :=
  if fs.paths.contains (imagePath root idx) then
    Except.ok (fs.readShape (imagePath root idx))
  else Except.error ("Image file " ++ imagePath root idx ++ " does not exist")

/-- `assert label_file.exists(), "Label file %s does not exist" % label_file`. -/
def get_label (fs : RawFS) (root idx : String) : Except String (List Obj) :=
  if fs.paths.contains (labelPath root idx) then
    Except.ok (fs.readObjs (labelPath root idx))
  else Except.error ("Label file " ++ labelPath root idx ++ " does not exist")

/-- `assert calib_file.exists()` — a bare assertion with no message. -/
def get_calib (fs : RawFS) (root idx : String) : Except String Calibration :=
  if fs.paths.contains (calibPath root idx) then
    Except.ok (fs.readCalib (calibPath root idx))
  else Except.error ""

/-- One iteration of `get_infos` over the accessors: any missing file error
propagates. -/
def process_single_sceneE (fs : RawFS) (ext : Externals) (root idx : String) :
    Except String InfoRec := do
  let shape ← get_image_shape fs root idx
  let calib ← get_calib fs root idx
  let objs ← get_label fs root idx
  let points ← get_lidar fs root idx
  Except.ok ⟨idx, some (process_single_scene calib ext shape points objs true)⟩

/-- Fail-fast collection over the frame id list: the first error aborts. -/
def collectInfos (f : String → Except String InfoRec) :
    List String → Except String (List InfoRec)
  | [] => Except.ok []
  | x :: xs =>
    match f x with
    | Except.error e => Except.error e
    | Except.ok v =>
      match collectInfos f xs with
      | Except.error e => Except.error e
      | Except.ok vs => Except.ok (v :: vs)

/-- `CODataset.get_infos` restricted to its accessor/abort behavior. -/
def get_infos (fs : RawFS) (ext : Externals) (root : String) (ids : List String) :
    Except String (List InfoRec) :=
  collectInfos (process_single_sceneE fs ext root) ids

/-- `pat` occurs as a contiguous substring of `s`. -/
def strContains (s pat : String) : Prop := ∃ a b, s = a ++ pat ++ b

theorem collectInfos_error (f : String → Except String InfoRec) (ids : List String)
    (idx : String) (hin : idx ∈ ids) (e : String) (hf : f idx = Except.error e) :
    ∃ e2, collectInfos f ids = Except.error e2 := by
  induction ids with
  | nil => cases hin
  | cons a t ih =>
    rcases List.mem_cons.mp hin with rfl | hmem
    · exact ⟨e, by simp [collectInfos, hf]⟩
    · cases hfa : f a with
      | error e3 => exact ⟨e3, by simp [collectInfos, hfa]⟩
      | ok v =>
        rcases ih hmem with ⟨e2, he2⟩
        exact ⟨e2, by simp [collectInfos, hfa, he2]⟩

theorem process_single_sceneE_error (fs : RawFS) (ext : Externals)
    (root idx : String)
    (h : fs.paths.contains (lidarPath root idx) = false ∨
         fs.paths.contains (imagePath root idx) = false ∨
         fs.paths.contains (labelPath root idx) = false ∨
         fs.paths.contains (calibPath root idx) = false) :
    ∃ e, process_single_sceneE fs ext root idx = Except.error e := by
  cases h1 : fs.paths.contains (imagePath root idx) <;>
  cases h2 : fs.paths.contains (calibPath root idx) <;>
  cases h3 : fs.paths.contains (labelPath root idx) <;>
  cases h4 : fs.paths.contains (lidarPath root idx) <;>
    simp_all [process_single_sceneE, get_image_shape, get_calib, get_label,
      get_lidar, Bind.bind, Except.bind]

theorem strContains_lidar_msg (root idx : String) :
    strContains ("Lidar files " ++ lidarPath root idx ++ " ") idx ∧
    strContains ("Lidar files " ++ lidarPath root idx ++ " ") "velodyne" := by
  constructor
  · refine ⟨"Lidar files " ++ root ++ "/velodyne/", ".bin" ++ " ", ?_⟩
    apply strExt
    simp [lidarPath, String.data_append]
  · refine ⟨"Lidar files " ++ root ++ "/", "/" ++ idx ++ ".bin" ++ " ", ?_⟩
    apply strExt
    have hv : ("/velodyne/" : String).data =
      ['/'] ++ ("velodyne" : String).data ++ ['/'] := rfl
    have hs : ("/" : String).data = ['/'] := rfl
    simp [lidarPath, String.data_append, hv, hs]

theorem strContains_image_msg (root idx : String) :
    strContains ("Image file " ++ imagePath root idx ++ " does not exist") idx ∧
    strContains ("Image file " ++ imagePath root idx ++ " does not exist") "image_0" := by
  constructor
  · refine ⟨"Image file " ++ root ++ "/image_0/", ".jpg" ++ " does not exist", ?_⟩
    apply strExt
    simp [imagePath, String.data_append]
  · refine ⟨"Image file " ++ root ++ "/", "/" ++ idx ++ ".jpg" ++ " does not exist", ?_⟩
    apply strExt
    have hv : ("/image_0/" : String).data =
      ['/'] ++ ("image_0" : String).data ++ ['/'] := rfl
    have hs : ("/" : String).data = ['/'] := rfl
    simp [imagePath, String.data_append, hv, hs]

theorem strContains_label_msg (root idx : String) :
    strContains ("Label file " ++ labelPath root idx ++ " does not exist") idx ∧
    strContains ("Label file " ++ labelPath root idx ++ " does not exist") "label_0" := by
  constructor
  · refine ⟨"Label file " ++ root ++ "/label_0/", ".txt" ++ " does not exist", ?_⟩
    apply strExt
    simp [labelPath, String.data_append]
  · refine ⟨"Label file " ++ root ++ "/", "/" ++ idx ++ ".txt" ++ " does not exist", ?_⟩
    apply strExt
    have hv : ("/label_0/" : String).data =
      ['/'] ++ ("label_0" : String).data ++ ['/'] := rfl
    have hs : ("/" : String).data = ['/'] := rfl
    simp [labelPath, String.data_append, hv, hs]

/-- Claim C9, amended: a missing lidar, image or label file makes the
corresponding accessor fail immediately with a message containing the frame
id and the resource directory name, and any such failure aborts the whole
`get_infos` batch; a missing calibration file likewise fails immediately and
aborts the batch, but its bare assertion carries an empty message reporting
neither the frame id nor the resource. -/
theorem missing_file_errors (fs : RawFS) (ext : Externals) (root idx : String)
    (ids : List String) (hin : idx ∈ ids) :
    (fs.paths.contains (lidarPath root idx) = false →
      get_lidar fs root idx =
        Except.error ("Lidar files " ++ lidarPath root idx ++ " ") ∧
      strContains ("Lidar files " ++ lidarPath root idx ++ " ") idx ∧
      strContains ("Lidar files " ++ lidarPath root idx ++ " ") "velodyne" ∧
      ∃ e, get_infos fs ext root ids = Except.error e) ∧
    (fs.paths.contains (imagePath root idx) = false →
      get_image_shape fs root idx =
        Except.error ("Image file " ++ imagePath root idx ++ " does not exist") ∧
      strContains ("Image file " ++ imagePath root idx ++ " does not exist") idx ∧
      strContains ("Image file " ++ imagePath root idx ++ " does not exist") "image_0" ∧
      ∃ e, get_infos fs ext root ids = Except.error e) ∧
    (fs.paths.contains (labelPath root idx) = false →
      get_label fs root idx =
        Except.error ("Label file " ++ labelPath root idx ++ " does not exist") ∧
      strContains ("Label file " ++ labelPath root idx ++ " does not exist") idx ∧
      strContains ("Label file " ++ labelPath root idx ++ " does not exist") "label_0" ∧
      ∃ e, get_infos fs ext root ids = Except.error e) ∧
    (fs.paths.contains (calibPath root idx) = false →
      get_calib fs root idx = Except.error "" ∧
      ∃ e, get_infos fs ext root ids = Except.error e) := by
  refine ⟨?_, ?_, ?_, ?_⟩
  · intro hc
    have hmem : lidarPath root idx ∉ fs.paths := by simpa using hc
    refine ⟨by simp [get_lidar, hmem], (strContains_lidar_msg root idx).1,
      (strContains_lidar_msg root idx).2, ?_⟩
    rcases process_single_sceneE_error fs ext root idx (Or.inl hc) with ⟨e, he⟩
    exact collectInfos_error _ ids idx hin e he
  · intro hc
    have hmem : imagePath root idx ∉ fs.paths := by simpa using hc
    refine ⟨by simp [get_image_shape, hmem], (strContains_image_msg root idx).1,
      (strContains_image_msg root idx).2, ?_⟩
    rcases process_single_sceneE_error fs ext root idx (Or.inr (Or.inl hc)) with ⟨e, he⟩
    exact collectInfos_error _ ids idx hin e he
  · intro hc
    have hmem : labelPath root idx ∉ fs.paths := by simpa using hc
    refine ⟨by simp [get_label, hmem], (strContains_label_msg root idx).1,
      (strContains_label_msg root idx).2, ?_⟩
    rcases process_single_sceneE_error fs ext root idx
      (Or.inr (Or.inr (Or.inl hc))) with ⟨e, he⟩
    exact collectInfos_error _ ids idx hin e he
  · intro hc
    have hmem : calibPath root idx ∉ fs.paths := by simpa using hc
    refine ⟨by simp [get_calib, hmem], ?_⟩
    rcases process_single_sceneE_error fs ext root idx
      (Or.inr (Or.inr (Or.inr hc))) with ⟨e, he⟩
    exact collectInfos_error _ ids idx hin e he

/-- An empty on-disk universe: every accessor fails. -/
def fsE : RawFS := ⟨[], fun _ => [], fun _ => ⟨0, 0⟩, fun _ => [],
  fun _ => ⟨fun p => ((p.1, p.2.1), p.2.2), id, id⟩⟩

/-- Concrete instantiation of claim C9's theorem (amended form): frame id
000001 with no files present. -/
theorem missing_file_errors_witness :
    ("000001" ∈ (["000001"] : List String)) ∧
    (fsE.paths.contains (lidarPath "training" "000001") = false) ∧
    (get_lidar fsE "training" "000001" =
      Except.error ("Lidar files " ++ lidarPath "training" "000001" ++ " ")) ∧
    strContains ("Lidar files " ++ lidarPath "training" "000001" ++ " ") "000001" ∧
    strContains ("Lidar files " ++ lidarPath "training" "000001" ++ " ") "velodyne" ∧
    (∃ e, get_infos fsE extW "training" ["000001"] = Except.error e) := by
  have h := (missing_file_errors fsE extW "training" "000001" ["000001"]
    (by simp)).1 rfl
  exact ⟨by simp, rfl, h.1, h.2.1, h.2.2.1, h.2.2.2⟩

/-- Claim C9 counterexample: the calibration accessor for frame id 000001
fails with the empty message, which contains neither the frame id nor the
resource name. -/
theorem get_calib_message_counterexample :
    get_calib fsE "training" "000001" = Except.error "" ∧
    ¬ strContains "" "000001" ∧ ¬ strContains "" "calib" := by
  have h0 : ("" : String).data = [] := rfl
  refine ⟨rfl, ?_, ?_⟩
  · rintro ⟨a, b, hab⟩
    have hd := congrArg String.data hab
    have h6 : ("000001" : String).data = ['0', '0', '0', '0', '0', '1'] := rfl
    simp [String.data_append, h0, h6] at hd
  · rintro ⟨a, b, hab⟩
    have hd := congrArg String.data hab
    have h5 : ("calib" : String).data = ['c', 'a', 'l', 'i', 'b'] := rfl
    simp [String.data_append, h0, h5] at hd
